import Mathlib

/-!
Verification of `src/data/json_to_csv.py` (bettergovph/2026-budget).

The script reads a hierarchical budget-report JSON document, flattens it
into a fixed 12-column row table (`flatten_json_to_rows`, lines 11-144)
and writes the rows to a CSV file (`main`, lines 146-199).

Shallow embedding choices:
  * Every JSON node the script reads is a dict whose keys may be absent;
    a field read `node.get(key, default)` is modelled as an `Option`
    field together with `Option.getD default`.  A node type carries
    exactly the keys the script reads from nodes at that position.
  * JSON numbers are modelled as `Int` (the script never computes with
    them; it copies them through unchanged).
  * Python dicts iterate in insertion order, so the `summary` mapping is
    modelled as an association list in document order.
  * `main`'s file I/O is modelled as a function from the outcome of
    reading the input file (not found / parse error / a parsed document)
    to an abstract result: exit code, the CSV file written (if any),
    whether the no-data warning was printed, and the error message (if
    any).  The modelled error messages omit the quote characters the
    script puts around the file name.
-/

namespace Budget2026

/-- Numeric payload of a `summary` entry: the five keys read at lines
31-35 of the source, each possibly absent. -/
structure SummaryValues where
  house : Option Int
  increase : Option Int
  decrease : Option Int
  net : Option Int
  senate : Option Int
deriving DecidableEq

/-- A sub-agency dict: keys read at lines 85-86 and 96-100. -/
structure SubAgency where
  code : Option String
  name : Option String
  house : Option Int
  increase : Option Int
  decrease : Option Int
  net : Option Int
  senate : Option Int
deriving DecidableEq

/-- An agency dict: keys read at lines 63-64, 75-79, 83 (and, for SPF
agencies, lines 126-127 and 137-141; the script never reads
`sub_agencies` of an SPF agency). -/
structure Agency where
  code : Option String
  name : Option String
  house : Option Int
  increase : Option Int
  decrease : Option Int
  net : Option Int
  senate : Option Int
  sub_agencies : Option (List SubAgency)
deriving DecidableEq

/-- A department dict: keys read at lines 41-42, 53-57, 61. -/
structure Department where
  code : Option String
  name : Option String
  house : Option Int
  increase : Option Int
  decrease : Option Int
  net : Option Int
  senate : Option Int
  agencies : Option (List Agency)
deriving DecidableEq

/-- A special-purpose-fund dict: keys read at lines 106-107, 117-121,
125. -/
structure Fund where
  code : Option String
  name : Option String
  house : Option Int
  increase : Option Int
  decrease : Option Int
  net : Option Int
  senate : Option Int
  agencies : Option (List Agency)
deriving DecidableEq

/-- The value under the top-level key: the three sub-trees read at lines
21, 39 and 104, plus the `unit` label read at line 197. -/
structure Report where
  summary : Option (List (String × SummaryValues))
  DEPARTMENTS : Option (List Department)
  SPECIAL_PURPOSE_FUNDS : Option (List Fund)
  unit : Option String
deriving DecidableEq

/-- The parsed top-level document: the script only ever reads the key
`COMMITTEE_REPORT_HBN_4058` (line 18), so other keys are not modelled. -/
structure Document where
  COMMITTEE_REPORT_HBN_4058 : Option Report
deriving DecidableEq

/-- The empty dict that `data.get(..., {})` at line 18 falls back to. -/
def Report.empty : Report := ⟨none, none, none, none⟩

/-- One output row: the 12 columns of every dict appended to `rows`. -/
structure Row where
  Level : String
  Department_Code : String
  Department_Name : String
  Agency_Code : String
  Agency_Name : String
  Sub_Agency_Code : String
  Sub_Agency_Name : String
  House : Int
  Increase : Int
  Decrease : Int
  Net : Int
  Senate : Int
deriving DecidableEq

/-- The row literal at lines 23-36 (summary entry `key` / `values`). -/
def summaryRow (key : String) (values : SummaryValues) : Row :=
  { Level := "Summary"
    Department_Code := ""
    Department_Name := key
    Agency_Code := ""
    Agency_Name := ""
    Sub_Agency_Code := ""
    Sub_Agency_Name := ""
    House := values.house.getD 0
    Increase := values.increase.getD 0
    Decrease := values.decrease.getD 0
    Net := values.net.getD 0
    Senate := values.senate.getD 0 }

/-- The row literal at lines 45-58 (one department). -/
def departmentRow (dept : Department) : Row :=
  { Level := "Department"
    Department_Code := dept.code.getD ""
    Department_Name := dept.name.getD ""
    Agency_Code := ""
    Agency_Name := ""
    Sub_Agency_Code := ""
    Sub_Agency_Name := ""
    House := dept.house.getD 0
    Increase := dept.increase.getD 0
    Decrease := dept.decrease.getD 0
    Net := dept.net.getD 0
    Senate := dept.senate.getD 0 }

/-- The row literal at lines 67-80 (an agency under a department whose
code and name were captured at lines 41-42). -/
def agencyRow (dept_code dept_name : String) (agency : Agency) : Row :=
  { Level := "Agency"
    Department_Code := dept_code
    Department_Name := dept_name
    Agency_Code := agency.code.getD ""
    Agency_Name := agency.name.getD ""
    Sub_Agency_Code := ""
    Sub_Agency_Name := ""
    House := agency.house.getD 0
    Increase := agency.increase.getD 0
    Decrease := agency.decrease.getD 0
    Net := agency.net.getD 0
    Senate := agency.senate.getD 0 }

/-- The row literal at lines 88-101 (a sub-agency under an agency). -/
def subAgencyRow (dept_code dept_name agency_code agency_name : String)
    (sub_agency : SubAgency) : Row :=
  { Level := "Sub-Agency"
    Department_Code := dept_code
    Department_Name := dept_name
    Agency_Code := agency_code
    Agency_Name := agency_name
    Sub_Agency_Code := sub_agency.code.getD ""
    Sub_Agency_Name := sub_agency.name.getD ""
    House := sub_agency.house.getD 0
    Increase := sub_agency.increase.getD 0
    Decrease := sub_agency.decrease.getD 0
    Net := sub_agency.net.getD 0
    Senate := sub_agency.senate.getD 0 }

/-- The row literal at lines 109-122 (one special purpose fund; its code
and name go into the Department columns). -/
def fundRow (fund : Fund) : Row :=
  { Level := "Special Purpose Fund"
    Department_Code := fund.code.getD ""
    Department_Name := fund.name.getD ""
    Agency_Code := ""
    Agency_Name := ""
    Sub_Agency_Code := ""
    Sub_Agency_Name := ""
    House := fund.house.getD 0
    Increase := fund.increase.getD 0
    Decrease := fund.decrease.getD 0
    Net := fund.net.getD 0
    Senate := fund.senate.getD 0 }

/-- The row literal at lines 129-142 (an agency of a special purpose
fund; the fund code and name captured at lines 106-107 go into the
Department columns). -/
def spfAgencyRow (fund_code fund_name : String) (agency : Agency) : Row :=
  { Level := "SPF Agency"
    Department_Code := fund_code
    Department_Name := fund_name
    Agency_Code := agency.code.getD ""
    Agency_Name := agency.name.getD ""
    Sub_Agency_Code := ""
    Sub_Agency_Name := ""
    House := agency.house.getD 0
    Increase := agency.increase.getD 0
    Decrease := agency.decrease.getD 0
    Net := agency.net.getD 0
    Senate := agency.senate.getD 0 }

/-- Direct translation of `flatten_json_to_rows` (lines 11-144).  Each
`for` loop only appends to `rows`, so the loop nest is the concatenation
of a map over the summary entries, a flatMap over the departments (each
contributing its own row followed by a flatMap over its agencies, each
contributing its own row followed by a map over its sub-agencies) and a
flatMap over the special purpose funds (each contributing its own row
followed by a map over its agencies). -/
def flatten_json_to_rows (data : Document) : List Row :=
  let report := data.COMMITTEE_REPORT_HBN_4058.getD Report.empty
  (report.summary.getD []).map (fun kv => summaryRow kv.1 kv.2) ++
  (report.DEPARTMENTS.getD []).flatMap (fun dept =>
    let dept_code := dept.code.getD ""
    let dept_name := dept.name.getD ""
    departmentRow dept ::
      (dept.agencies.getD []).flatMap (fun agency =>
        let agency_code := agency.code.getD ""
        let agency_name := agency.name.getD ""
        agencyRow dept_code dept_name agency ::
          (agency.sub_agencies.getD []).map
            (subAgencyRow dept_code dept_name agency_code agency_name))) ++
  (report.SPECIAL_PURPOSE_FUNDS.getD []).flatMap (fun fund =>
    let fund_code := fund.code.getD ""
    let fund_name := fund.name.getD ""
    fundRow fund ::
      (fund.agencies.getD []).map (spfAgencyRow fund_code fund_name))

/-- The `fieldnames` list at lines 176-189. -/
def fieldnames : List String :=
  ["Level", "Department_Code", "Department_Name", "Agency_Code",
   "Agency_Name", "Sub_Agency_Code", "Sub_Agency_Name", "House",
   "Increase", "Decrease", "Net", "Senate"]

/-- Outcome of trying to read and parse the input file in `main`
(lines 159-167). -/
inductive ReadResult where
  | fileNotFound : ReadResult
  | invalidJSON : ReadResult
  | ok : Document → ReadResult
deriving DecidableEq

/-- A CSV file as written at lines 191-194: a header record followed by
the data rows. -/
structure CsvFile where
  header : List String
  records : List Row
deriving DecidableEq

/-- Observable outcome of one run of `main`. -/
structure MainResult where
  exitCode : Nat
  output : Option CsvFile
  warnedNoData : Bool
  errorMessage : Option String
deriving DecidableEq

/-- Translation of `main` (lines 146-199) given the outcome of reading
the input file named `input_file`.  On a read or parse failure the
script prints an error and calls `sys.exit(1)` before touching the
output file.  Otherwise it flattens the document; when the row list is
non-empty it writes header plus rows (lines 175-194), and when it is
empty it only prints a warning (line 199) and falls off the end of
`main`, exiting with status 0.  The modelled messages drop the quote
characters around the file name and, for the parse error, the exception
text interpolated at line 166. -/
def main_model (input_file : String) (read : ReadResult) : MainResult :=
  match read with
  | ReadResult.fileNotFound =>
      { exitCode := 1
        output := none
        warnedNoData := false
        errorMessage := some ("Error: File " ++ input_file ++ " not found") }
  | ReadResult.invalidJSON =>
      { exitCode := 1
        output := none
        warnedNoData := false
        errorMessage := some ("Error: Invalid JSON in " ++ input_file) }
  | ReadResult.ok data =>
      let rows := flatten_json_to_rows data
      if rows.isEmpty then
        { exitCode := 0
          output := none
          warnedNoData := true
          errorMessage := none }
      else
        { exitCode := 0
          output := some { header := fieldnames, records := rows }
          warnedNoData := false
          errorMessage := none }

/-! ### Accessors used to state the claims -/

/-- The report the script works on: the value under the top-level key,
or the empty dict (line 18). -/
def docReport (data : Document) : Report :=
  data.COMMITTEE_REPORT_HBN_4058.getD Report.empty

/-- The summary entries the script iterates over (lines 21-22). -/
def docSummary (data : Document) : List (String × SummaryValues) :=
  (docReport data).summary.getD []

/-- The departments the script iterates over (lines 39-40). -/
def docDepartments (data : Document) : List Department :=
  (docReport data).DEPARTMENTS.getD []

/-- The special purpose funds the script iterates over (lines 104-105). -/
def docFunds (data : Document) : List Fund :=
  (docReport data).SPECIAL_PURPOSE_FUNDS.getD []

/-- The agencies of a department or fund (lines 61, 125). -/
def childAgencies (agencies : Option (List Agency)) : List Agency :=
  agencies.getD []

/-- The sub-agencies of an agency (line 83). -/
def childSubAgencies (agency : Agency) : List SubAgency :=
  agency.sub_agencies.getD []

/-! ### Spec-side counting and traversal order

The following definitions render the words of the specification (row
count formula; depth-first order, parent before children, siblings in
document order) so they can be compared with `flatten_json_to_rows`. -/

/-- Number of summary entries of a document. -/
def summaryCount (data : Document) : Nat := (docSummary data).length

/-- Number of departments of a document. -/
def departmentCount (data : Document) : Nat := (docDepartments data).length

/-- Total number of agencies across all departments. -/
def agencyCount (data : Document) : Nat :=
  ((docDepartments data).map (fun dept => (childAgencies dept.agencies).length)).sum

/-- Total number of sub-agencies across all agencies of all departments. -/
def subAgencyCount (data : Document) : Nat :=
  ((docDepartments data).map (fun dept =>
    ((childAgencies dept.agencies).map
      (fun agency => (childSubAgencies agency).length)).sum)).sum

/-- Number of special purpose funds of a document. -/
def fundCount (data : Document) : Nat := (docFunds data).length

/-- Total number of agencies across all special purpose funds. -/
def spfAgencyCount (data : Document) : Nat :=
  ((docFunds data).map (fun fund => (childAgencies fund.agencies).length)).sum

/-- Depth-first rows of one agency subtree: the agency row first, then
one row per sub-agency in document order. -/
def agencySubtreeRows (dept_code dept_name : String) (agency : Agency) : List Row :=
  agencyRow dept_code dept_name agency ::
    (childSubAgencies agency).map
      (subAgencyRow dept_code dept_name (agency.code.getD "") (agency.name.getD ""))

/-- Depth-first rows of one department subtree: the department row
first, then each agency subtree in document order. -/
def departmentSubtreeRows (dept : Department) : List Row :=
  departmentRow dept ::
    (childAgencies dept.agencies).flatMap
      (agencySubtreeRows (dept.code.getD "") (dept.name.getD ""))

/-- Depth-first rows of one fund subtree: the fund row first, then one
SPF agency row per agency in document order. -/
def fundSubtreeRows (fund : Fund) : List Row :=
  fundRow fund ::
    (childAgencies fund.agencies).map
      (spfAgencyRow (fund.code.getD "") (fund.name.getD ""))

/-- Spec-side traversal: all summary rows in document order, then the
department subtrees in document order, then the fund subtrees in
document order — depth-first, parent before children, siblings in
document order. -/
def traversalOrderRows (data : Document) : List Row :=
  (docSummary data).map (fun kv => summaryRow kv.1 kv.2) ++
  (docDepartments data).flatMap departmentSubtreeRows ++
  (docFunds data).flatMap fundSubtreeRows

/-! ### Concrete documents used as witnesses -/

/-- The agency of the specification scenario input. -/
def scenarioAgency : Agency :=
  { code := some "A1", name := some "Agency 1", house := some 50,
    increase := none, decrease := none, net := none, senate := none,
    sub_agencies := none }

/-- The department of the specification scenario input. -/
def scenarioDept : Department :=
  { code := some "A", name := some "Dept A", house := some 50,
    increase := none, decrease := none, net := none, senate := none,
    agencies := some [scenarioAgency] }

/-- The scenario input of the specification: one summary entry and one
department with one agency. -/
def scenarioDoc : Document :=
  ⟨some
    { summary := some [("Total",
        { house := some 100, increase := some 20, decrease := some 0,
          net := some 20, senate := some 120 })]
      DEPARTMENTS := some [scenarioDept]
      SPECIAL_PURPOSE_FUNDS := none
      unit := none }⟩

/-- A document whose parsed top level lacks the report key entirely. -/
def emptyDoc : Document := ⟨none⟩

/-- A sample agency of a special purpose fund. -/
def spfAgency1 : Agency :=
  { code := some "FA", name := some "Fund Agency", house := some 3,
    increase := none, decrease := none, net := none, senate := none,
    sub_agencies := none }

/-- A sample special purpose fund holding one agency. -/
def spfFund1 : Fund :=
  { code := some "F1", name := some "Fund 1", house := some 7,
    increase := none, decrease := none, net := none, senate := none,
    agencies := some [spfAgency1] }

/-- A document with one special purpose fund holding one agency. -/
def spfDoc : Document :=
  ⟨some
    { summary := none
      DEPARTMENTS := none
      SPECIAL_PURPOSE_FUNDS := some [spfFund1]
      unit := none }⟩

/-- A summary-values dict with every key absent. -/
def blankValues : SummaryValues := ⟨none, none, none, none, none⟩

/-- A sub-agency dict with every key absent. -/
def blankSubAgency : SubAgency := ⟨none, none, none, none, none, none, none⟩

/-- An agency dict with every key absent. -/
def blankAgency : Agency := ⟨none, none, none, none, none, none, none, none⟩

/-- A department dict with every key absent. -/
def blankDepartment : Department := ⟨none, none, none, none, none, none, none, none⟩

/-- A fund dict with every key absent. -/
def blankFund : Fund := ⟨none, none, none, none, none, none, none, none⟩

/-! ### Numeric field selectors

The five monetary keys the script reads at every level, indexed so one
statement can quantify over them. -/

/-- One of the five monetary keys. -/
inductive NumField where
  | house : NumField
  | increase : NumField
  | decrease : NumField
  | net : NumField
  | senate : NumField
deriving DecidableEq

/-- The output column a monetary key lands in. -/
def numericColumn (r : Row) : NumField → Int
  | NumField.house => r.House
  | NumField.increase => r.Increase
  | NumField.decrease => r.Decrease
  | NumField.net => r.Net
  | NumField.senate => r.Senate

/-- The monetary keys of a summary-values dict. -/
def SummaryValues.numField (v : SummaryValues) : NumField → Option Int
  | NumField.house => v.house
  | NumField.increase => v.increase
  | NumField.decrease => v.decrease
  | NumField.net => v.net
  | NumField.senate => v.senate

/-- The monetary keys of a department dict. -/
def Department.numField (dept : Department) : NumField → Option Int
  | NumField.house => dept.house
  | NumField.increase => dept.increase
  | NumField.decrease => dept.decrease
  | NumField.net => dept.net
  | NumField.senate => dept.senate

/-- The monetary keys of an agency dict. -/
def Agency.numField (agency : Agency) : NumField → Option Int
  | NumField.house => agency.house
  | NumField.increase => agency.increase
  | NumField.decrease => agency.decrease
  | NumField.net => agency.net
  | NumField.senate => agency.senate

/-- The monetary keys of a sub-agency dict. -/
def SubAgency.numField (sub_agency : SubAgency) : NumField → Option Int
  | NumField.house => sub_agency.house
  | NumField.increase => sub_agency.increase
  | NumField.decrease => sub_agency.decrease
  | NumField.net => sub_agency.net
  | NumField.senate => sub_agency.senate

/-- The monetary keys of a fund dict. -/
def Fund.numField (fund : Fund) : NumField → Option Int
  | NumField.house => fund.house
  | NumField.increase => fund.increase
  | NumField.decrease => fund.decrease
  | NumField.net => fund.net
  | NumField.senate => fund.senate

/-! ### Identity field selectors

The two identity keys (code, name) the script reads at every level,
indexed so one statement can quantify over them independently of the
other key of the same node. -/

/-- One of the two identity keys of a node. -/
inductive IdField where
  | code : IdField
  | name : IdField
deriving DecidableEq

/-- The Department-level identity columns of a row (used by department
rows and, through the schema reuse, by fund rows). -/
def departmentColumn (r : Row) : IdField → String
  | IdField.code => r.Department_Code
  | IdField.name => r.Department_Name

/-- The Agency-level identity columns of a row (used by agency rows and
SPF agency rows). -/
def agencyColumn (r : Row) : IdField → String
  | IdField.code => r.Agency_Code
  | IdField.name => r.Agency_Name

/-- The Sub-Agency-level identity columns of a row. -/
def subAgencyColumn (r : Row) : IdField → String
  | IdField.code => r.Sub_Agency_Code
  | IdField.name => r.Sub_Agency_Name

/-- The identity keys of a department dict. -/
def Department.idField (dept : Department) : IdField → Option String
  | IdField.code => dept.code
  | IdField.name => dept.name

/-- The identity keys of an agency dict. -/
def Agency.idField (agency : Agency) : IdField → Option String
  | IdField.code => agency.code
  | IdField.name => agency.name

/-- The identity keys of a sub-agency dict. -/
def SubAgency.idField (sub_agency : SubAgency) : IdField → Option String
  | IdField.code => sub_agency.code
  | IdField.name => sub_agency.name

/-- The identity keys of a fund dict. -/
def Fund.idField (fund : Fund) : IdField → Option String
  | IdField.code => fund.code
  | IdField.name => fund.name

/-- A department dict missing only its code key. -/
def codelessDepartment : Department :=
  { code := none, name := some "Dept X", house := none, increase := none,
    decrease := none, net := none, senate := none, agencies := none }

/-- An agency dict missing only its code key. -/
def codelessAgency : Agency :=
  { code := none, name := some "Agency X", house := none, increase := none,
    decrease := none, net := none, senate := none, sub_agencies := none }

/-- A sub-agency dict missing only its code key. -/
def codelessSubAgency : SubAgency :=
  { code := none, name := some "Sub X", house := none, increase := none,
    decrease := none, net := none, senate := none }

/-- A fund dict missing only its code key. -/
def codelessFund : Fund :=
  { code := none, name := some "Fund X", house := none, increase := none,
    decrease := none, net := none, senate := none, agencies := none }

/-! ### Length lemmas for the traversal blocks -/

/-- Length of the agency block of one department. -/
lemma length_agencyBlock (dept_code dept_name : String) (agencies : List Agency) :
    (agencies.flatMap (agencySubtreeRows dept_code dept_name)).length =
      agencies.length +
        (agencies.map (fun agency => (childSubAgencies agency).length)).sum := by
  induction agencies with
  | nil => simp
  | cons agency rest ih =>
      simp only [List.flatMap_cons, List.length_append, ih, agencySubtreeRows,
        List.length_cons, List.length_map, List.map_cons, List.sum_cons]
      omega

/-- Length of the department block. -/
lemma length_departmentBlock (depts : List Department) :
    (depts.flatMap departmentSubtreeRows).length =
      depts.length +
        (depts.map (fun dept => (childAgencies dept.agencies).length)).sum +
        (depts.map (fun dept =>
          ((childAgencies dept.agencies).map
            (fun agency => (childSubAgencies agency).length)).sum)).sum := by
  induction depts with
  | nil => simp
  | cons dept rest ih =>
      simp only [List.flatMap_cons, List.length_append, ih,
        departmentSubtreeRows, List.length_cons, length_agencyBlock,
        List.map_cons, List.sum_cons]
      omega

/-- Length of the fund block. -/
lemma length_fundBlock (funds : List Fund) :
    (funds.flatMap fundSubtreeRows).length =
      funds.length +
        (funds.map (fun fund => (childAgencies fund.agencies).length)).sum := by
  induction funds with
  | nil => simp
  | cons fund rest ih =>
      simp only [List.flatMap_cons, List.length_append, ih, fundSubtreeRows,
        List.length_cons, List.length_map, List.map_cons, List.sum_cons]
      omega

/-- The direct translation coincides with the spec-side traversal. -/
lemma flatten_eq_traversalOrderRows (data : Document) :
    flatten_json_to_rows data = traversalOrderRows data := rfl

/-! ### Claim theorems -/

/-- C1: for every input document, the number of rows returned by
`flatten_json_to_rows` equals the number of summary entries plus the
number of departments plus the total number of agencies across all
departments plus the total number of sub-agencies across all agencies
plus the number of special purpose funds plus the total number of
agencies across all funds; and the rows appear in input traversal
order — depth-first, parent before children, siblings in document
order (as rendered by `traversalOrderRows`). -/
theorem flatten_rowCount_and_order (data : Document) :
    (flatten_json_to_rows data).length =
      summaryCount data + departmentCount data + agencyCount data +
        subAgencyCount data + fundCount data + spfAgencyCount data ∧
    flatten_json_to_rows data = traversalOrderRows data := by
  refine ⟨?_, flatten_eq_traversalOrderRows data⟩
  rw [flatten_eq_traversalOrderRows]
  simp only [traversalOrderRows, List.length_append, List.length_map,
    length_departmentBlock, length_fundBlock, summaryCount, departmentCount,
    agencyCount, subAgencyCount, fundCount, spfAgencyCount]
  omega

/-- C5: the specification scenario input yields exactly three rows, in
order: the Summary row for Total, the Department row for Dept A, and
the Agency row for Agency 1, with every numeric field not given in the
input equal to 0. -/
theorem flatten_scenario :
    flatten_json_to_rows scenarioDoc =
      [{ Level := "Summary", Department_Code := "", Department_Name := "Total",
         Agency_Code := "", Agency_Name := "", Sub_Agency_Code := "",
         Sub_Agency_Name := "", House := 100, Increase := 20, Decrease := 0,
         Net := 20, Senate := 120 },
       { Level := "Department", Department_Code := "A",
         Department_Name := "Dept A", Agency_Code := "", Agency_Name := "",
         Sub_Agency_Code := "", Sub_Agency_Name := "", House := 50,
         Increase := 0, Decrease := 0, Net := 0, Senate := 0 },
       { Level := "Agency", Department_Code := "A",
         Department_Name := "Dept A", Agency_Code := "A1",
         Agency_Name := "Agency 1", Sub_Agency_Code := "",
         Sub_Agency_Name := "", House := 50, Increase := 0, Decrease := 0,
         Net := 0, Senate := 0 }] := by
  rfl

/-- C7: `flatten_json_to_rows` is deterministic — two runs on equal
parsed inputs produce identical row sequences. -/
theorem flatten_deterministic (d₁ d₂ : Document) (r₁ r₂ : List Row)
    (h : d₁ = d₂) (h₁ : r₁ = flatten_json_to_rows d₁)
    (h₂ : r₂ = flatten_json_to_rows d₂) : r₁ = r₂ := by
  subst h; subst h₁; subst h₂; rfl

/-- Witness for C7 at the scenario document. -/
theorem flatten_deterministic_witness :
    flatten_json_to_rows scenarioDoc = flatten_json_to_rows scenarioDoc :=
  flatten_deterministic scenarioDoc scenarioDoc _ _ rfl rfl rfl

/-- C2: every special purpose fund of the input yields a row with Level
Special Purpose Fund carrying the fund code and name in the Department
columns, and every agency of the fund yields a row with Level SPF
Agency carrying the fund code and name in the Department columns, the
agency code and name in the Agency columns, and empty strings in both
Sub-Agency columns. -/
theorem spf_fund_and_agency_rows (data : Document) (fund : Fund)
    (hf : fund ∈ docFunds data) :
    (∃ r ∈ flatten_json_to_rows data,
      r.Level = "Special Purpose Fund" ∧
      r.Department_Code = fund.code.getD "" ∧
      r.Department_Name = fund.name.getD "" ∧
      r.Agency_Code = "" ∧ r.Agency_Name = "" ∧
      r.Sub_Agency_Code = "" ∧ r.Sub_Agency_Name = "") ∧
    ∀ agency ∈ childAgencies fund.agencies,
      ∃ r ∈ flatten_json_to_rows data,
        r.Level = "SPF Agency" ∧
        r.Department_Code = fund.code.getD "" ∧
        r.Department_Name = fund.name.getD "" ∧
        r.Agency_Code = agency.code.getD "" ∧
        r.Agency_Name = agency.name.getD "" ∧
        r.Sub_Agency_Code = "" ∧ r.Sub_Agency_Name = "" := by
  constructor
  · refine ⟨fundRow fund, ?_, rfl, rfl, rfl, rfl, rfl, rfl, rfl⟩
    rw [flatten_eq_traversalOrderRows]
    unfold traversalOrderRows
    refine List.mem_append.mpr (Or.inr ?_)
    exact List.mem_flatMap.mpr ⟨fund, hf, by simp [fundSubtreeRows]⟩
  · intro agency ha
    refine ⟨spfAgencyRow (fund.code.getD "") (fund.name.getD "") agency,
      ?_, rfl, rfl, rfl, rfl, rfl, rfl, rfl⟩
    rw [flatten_eq_traversalOrderRows]
    unfold traversalOrderRows
    refine List.mem_append.mpr (Or.inr ?_)
    refine List.mem_flatMap.mpr ⟨fund, hf, ?_⟩
    exact List.mem_cons_of_mem _ (List.mem_map.mpr ⟨agency, ha, rfl⟩)

/-- Witness for C2 at the one-fund document. -/
theorem spf_fund_and_agency_rows_witness :
    spfFund1 ∈ docFunds spfDoc ∧
    ((∃ r ∈ flatten_json_to_rows spfDoc,
      r.Level = "Special Purpose Fund" ∧
      r.Department_Code = spfFund1.code.getD "" ∧
      r.Department_Name = spfFund1.name.getD "" ∧
      r.Agency_Code = "" ∧ r.Agency_Name = "" ∧
      r.Sub_Agency_Code = "" ∧ r.Sub_Agency_Name = "") ∧
    ∀ agency ∈ childAgencies spfFund1.agencies,
      ∃ r ∈ flatten_json_to_rows spfDoc,
        r.Level = "SPF Agency" ∧
        r.Department_Code = spfFund1.code.getD "" ∧
        r.Department_Name = spfFund1.name.getD "" ∧
        r.Agency_Code = agency.code.getD "" ∧
        r.Agency_Name = agency.name.getD "" ∧
        r.Sub_Agency_Code = "" ∧ r.Sub_Agency_Name = "") :=
  ⟨by decide, spf_fund_and_agency_rows spfDoc spfFund1 (by decide)⟩

/-- C3 (counterexample): on a parsed document that flattens to zero
rows, `main` does not write a header-only file — its `if rows:` guard
skips the write entirely, so no output is produced at all. -/
theorem main_empty_not_header_only :
    (main_model "2026.json" (ReadResult.ok emptyDoc)).output ≠
      some { header := fieldnames, records := [] } := by
  decide

/-- C3 (amended): when the parsed document flattens to zero rows,
`main` writes no output file at all, prints the no-data warning, and
exits with status 0. -/
theorem main_empty_rows_behavior (input_file : String) (data : Document)
    (h : flatten_json_to_rows data = []) :
    main_model input_file (ReadResult.ok data) =
      { exitCode := 0, output := none, warnedNoData := true,
        errorMessage := none } := by
  simp [main_model, h]

/-- Witness for the amended C3 at the empty document. -/
theorem main_empty_rows_behavior_witness :
    flatten_json_to_rows emptyDoc = [] ∧
    main_model "2026.json" (ReadResult.ok emptyDoc) =
      { exitCode := 0, output := none, warnedNoData := true,
        errorMessage := none } :=
  ⟨rfl, main_empty_rows_behavior "2026.json" emptyDoc rfl⟩

/-- C6: when the input file is missing or does not parse, `main` exits
with a non-zero status and an error message, and no output file is
written. -/
theorem main_read_failures (input_file : String) :
    ((main_model input_file ReadResult.fileNotFound).exitCode ≠ 0 ∧
     (main_model input_file ReadResult.fileNotFound).output = none ∧
     (main_model input_file ReadResult.fileNotFound).errorMessage.isSome = true) ∧
    ((main_model input_file ReadResult.invalidJSON).exitCode ≠ 0 ∧
     (main_model input_file ReadResult.invalidJSON).output = none ∧
     (main_model input_file ReadResult.invalidJSON).errorMessage.isSome = true) := by
  simp [main_model]

/-- C8: a parsed document lacking the top-level report key, or whose
report lacks summary, DEPARTMENTS and SPECIAL_PURPOSE_FUNDS, flattens
to the empty row list without failing, which sends `main` into the
warning path: no output, warning printed, exit status 0. -/
theorem flatten_missing_report_empty (data : Document)
    (h : data.COMMITTEE_REPORT_HBN_4058 = none ∨
      ∃ report, data.COMMITTEE_REPORT_HBN_4058 = some report ∧
        report.summary = none ∧ report.DEPARTMENTS = none ∧
        report.SPECIAL_PURPOSE_FUNDS = none) :
    flatten_json_to_rows data = [] ∧
    ∀ input_file, main_model input_file (ReadResult.ok data) =
      { exitCode := 0, output := none, warnedNoData := true,
        errorMessage := none } := by
  have hrows : flatten_json_to_rows data = [] := by
    rcases h with h | ⟨report, hr, h1, h2, h3⟩
    · simp [flatten_json_to_rows, h, Report.empty]
    · simp [flatten_json_to_rows, hr, h1, h2, h3]
  exact ⟨hrows, fun input_file => by simp [main_model, hrows]⟩

/-- Witness for C8 at the document lacking the report key. -/
theorem flatten_missing_report_empty_witness :
    emptyDoc.COMMITTEE_REPORT_HBN_4058 = none ∧
    flatten_json_to_rows emptyDoc = [] ∧
    ∀ input_file, main_model input_file (ReadResult.ok emptyDoc) =
      { exitCode := 0, output := none, warnedNoData := true,
        errorMessage := none } :=
  ⟨rfl, flatten_missing_report_empty emptyDoc (Or.inl rfl)⟩

/-- C4: at every level (summary entry, department, agency, sub-agency,
fund, SPF agency), a monetary key that is absent from the node appears
as 0 in the corresponding column of that node's output row.  (Absence
never raises: every row constructor, and `flatten_json_to_rows` itself,
is a total function of the modelled document.) -/
theorem missing_numeric_defaults_to_zero (f : NumField) (key : String)
    (values : SummaryValues) (dept : Department) (agency : Agency)
    (sub_agency : SubAgency) (fund : Fund)
    (dept_code dept_name agency_code agency_name fund_code fund_name : String)
    (hv : values.numField f = none) (hd : dept.numField f = none)
    (ha : agency.numField f = none) (hs : sub_agency.numField f = none)
    (hf : fund.numField f = none) :
    numericColumn (summaryRow key values) f = 0 ∧
    numericColumn (departmentRow dept) f = 0 ∧
    numericColumn (agencyRow dept_code dept_name agency) f = 0 ∧
    numericColumn
      (subAgencyRow dept_code dept_name agency_code agency_name sub_agency) f = 0 ∧
    numericColumn (fundRow fund) f = 0 ∧
    numericColumn (spfAgencyRow fund_code fund_name agency) f = 0 := by
  cases f <;>
    simp_all [numericColumn, summaryRow, departmentRow, agencyRow,
      subAgencyRow, fundRow, spfAgencyRow, SummaryValues.numField,
      Department.numField, Agency.numField, SubAgency.numField,
      Fund.numField]

/-- Witness for C4 at nodes with every key absent, for the house key. -/
theorem missing_numeric_defaults_to_zero_witness :
    blankValues.numField NumField.house = none ∧
    numericColumn (summaryRow "Total" blankValues) NumField.house = 0 ∧
    numericColumn (departmentRow blankDepartment) NumField.house = 0 ∧
    numericColumn (agencyRow "" "" blankAgency) NumField.house = 0 ∧
    numericColumn (subAgencyRow "" "" "" "" blankSubAgency) NumField.house = 0 ∧
    numericColumn (fundRow blankFund) NumField.house = 0 ∧
    numericColumn (spfAgencyRow "" "" blankAgency) NumField.house = 0 := by
  have h := missing_numeric_defaults_to_zero NumField.house "Total"
    blankValues blankDepartment blankAgency blankSubAgency blankFund
    "" "" "" "" "" "" rfl rfl rfl rfl rfl
  exact ⟨rfl, h.1, h.2.1, h.2.2.1, h.2.2.2.1, h.2.2.2.2.1, h.2.2.2.2.2⟩

/-- C9: every Agency or Sub-Agency row of the output carries exactly the
code and name of an enclosing department (and, for Sub-Agency rows, of
an enclosing agency of that department), and every SPF Agency row
carries exactly the code and name of an enclosing fund. -/
theorem row_hierarchy_identity (data : Document) (r : Row)
    (hr : r ∈ flatten_json_to_rows data) :
    (r.Level = "Agency" →
      ∃ dept ∈ docDepartments data, ∃ agency ∈ childAgencies dept.agencies,
        r.Department_Code = dept.code.getD "" ∧
        r.Department_Name = dept.name.getD "" ∧
        r.Agency_Code = agency.code.getD "" ∧
        r.Agency_Name = agency.name.getD "") ∧
    (r.Level = "Sub-Agency" →
      ∃ dept ∈ docDepartments data, ∃ agency ∈ childAgencies dept.agencies,
        ∃ sub_agency ∈ childSubAgencies agency,
          r.Department_Code = dept.code.getD "" ∧
          r.Department_Name = dept.name.getD "" ∧
          r.Agency_Code = agency.code.getD "" ∧
          r.Agency_Name = agency.name.getD "" ∧
          r.Sub_Agency_Code = sub_agency.code.getD "" ∧
          r.Sub_Agency_Name = sub_agency.name.getD "") ∧
    (r.Level = "SPF Agency" →
      ∃ fund ∈ docFunds data, ∃ agency ∈ childAgencies fund.agencies,
        r.Department_Code = fund.code.getD "" ∧
        r.Department_Name = fund.name.getD "" ∧
        r.Agency_Code = agency.code.getD "" ∧
        r.Agency_Name = agency.name.getD "") := by
  rw [flatten_eq_traversalOrderRows] at hr
  unfold traversalOrderRows at hr
  rcases List.mem_append.mp hr with hsd | hfund
  rcases List.mem_append.mp hsd with hsum | hdept
  · obtain ⟨kv, -, rfl⟩ := List.mem_map.mp hsum
    refine ⟨fun h => ?_, fun h => ?_, fun h => ?_⟩ <;> simp [summaryRow] at h
  · obtain ⟨dept, hdm, hr3⟩ := List.mem_flatMap.mp hdept
    unfold departmentSubtreeRows at hr3
    rcases List.mem_cons.mp hr3 with rfl | hr4
    · refine ⟨fun h => ?_, fun h => ?_, fun h => ?_⟩ <;>
        simp [departmentRow] at h
    · obtain ⟨agency, ham, hr5⟩ := List.mem_flatMap.mp hr4
      unfold agencySubtreeRows at hr5
      rcases List.mem_cons.mp hr5 with rfl | hr6
      · refine ⟨fun _ => ⟨dept, hdm, agency, ham, rfl, rfl, rfl, rfl⟩,
          fun h => ?_, fun h => ?_⟩ <;> simp [agencyRow] at h
      · obtain ⟨sub_agency, hsm, rfl⟩ := List.mem_map.mp hr6
        refine ⟨fun h => ?_, fun _ =>
          ⟨dept, hdm, agency, ham, sub_agency, hsm,
            rfl, rfl, rfl, rfl, rfl, rfl⟩,
          fun h => ?_⟩ <;> simp [subAgencyRow] at h
  · obtain ⟨fund, hfm, hr3⟩ := List.mem_flatMap.mp hfund
    unfold fundSubtreeRows at hr3
    rcases List.mem_cons.mp hr3 with rfl | hr4
    · refine ⟨fun h => ?_, fun h => ?_, fun h => ?_⟩ <;> simp [fundRow] at h
    · obtain ⟨agency, ham, rfl⟩ := List.mem_map.mp hr4
      refine ⟨fun h => ?_, fun h => ?_, fun _ =>
        ⟨fund, hfm, agency, ham, rfl, rfl, rfl, rfl⟩⟩ <;>
        simp [spfAgencyRow] at h

/-- Witness for C9 at the SPF agency row of the one-fund document. -/
theorem row_hierarchy_identity_witness :
    spfAgencyRow "F1" "Fund 1" spfAgency1 ∈ flatten_json_to_rows spfDoc ∧
    ((spfAgencyRow "F1" "Fund 1" spfAgency1).Level = "SPF Agency" →
      ∃ fund ∈ docFunds spfDoc, ∃ agency ∈ childAgencies fund.agencies,
        (spfAgencyRow "F1" "Fund 1" spfAgency1).Department_Code =
          fund.code.getD "" ∧
        (spfAgencyRow "F1" "Fund 1" spfAgency1).Department_Name =
          fund.name.getD "" ∧
        (spfAgencyRow "F1" "Fund 1" spfAgency1).Agency_Code =
          agency.code.getD "" ∧
        (spfAgencyRow "F1" "Fund 1" spfAgency1).Agency_Name =
          agency.name.getD "") :=
  ⟨by decide,
    (row_hierarchy_identity spfDoc
      (spfAgencyRow "F1" "Fund 1" spfAgency1) (by decide)).2.2⟩

/-- C10: a department, agency, sub-agency or fund node missing its code
key, or missing its name key, gets the empty string in the
corresponding code or name column of its output row (identity keys
default to the empty string the same way monetary keys default to 0).
The absent key is quantified, so a node missing only one of the two
identity keys is covered without any assumption on the other. -/
theorem missing_identity_defaults_to_empty (f : IdField) (dept : Department)
    (agency : Agency) (sub_agency : SubAgency) (fund : Fund)
    (dept_code dept_name agency_code agency_name fund_code fund_name : String)
    (hd : dept.idField f = none) (ha : agency.idField f = none)
    (hs : sub_agency.idField f = none) (hf : fund.idField f = none) :
    departmentColumn (departmentRow dept) f = "" ∧
    agencyColumn (agencyRow dept_code dept_name agency) f = "" ∧
    subAgencyColumn
      (subAgencyRow dept_code dept_name agency_code agency_name sub_agency) f = "" ∧
    departmentColumn (fundRow fund) f = "" ∧
    agencyColumn (spfAgencyRow fund_code fund_name agency) f = "" := by
  cases f <;>
    simp_all [departmentColumn, agencyColumn, subAgencyColumn,
      departmentRow, agencyRow, subAgencyRow, fundRow, spfAgencyRow,
      Department.idField, Agency.idField, SubAgency.idField, Fund.idField]

/-- Witness for C10 at nodes missing only their code key (each name key
is present), for the code field. -/
theorem missing_identity_defaults_to_empty_witness :
    codelessDepartment.idField IdField.code = none ∧
    codelessDepartment.name = some "Dept X" ∧
    departmentColumn (departmentRow codelessDepartment) IdField.code = "" ∧
    agencyColumn (agencyRow "" "" codelessAgency) IdField.code = "" ∧
    subAgencyColumn
      (subAgencyRow "" "" "" "" codelessSubAgency) IdField.code = "" ∧
    departmentColumn (fundRow codelessFund) IdField.code = "" ∧
    agencyColumn (spfAgencyRow "" "" codelessAgency) IdField.code = "" := by
  have h := missing_identity_defaults_to_empty IdField.code
    codelessDepartment codelessAgency codelessSubAgency codelessFund
    "" "" "" "" "" "" rfl rfl rfl rfl
  exact ⟨rfl, rfl, h.1, h.2.1, h.2.2.1, h.2.2.2.1, h.2.2.2.2⟩

end Budget2026
